import Mathlib

/-!
Shallow embedding of `src/distractors_benchmark/agent.py` (the DQNAgent
constructor and its `update` method).  The file is a configuration script:
the constructor wires a reverb replay table/server, an n-step adder, a
dataset reader, a Q-network with a deep-copied target network, an
epsilon-greedy policy, an actor, a learner call, and an optional periodic
checkpointer, then calls the parent `agent.Agent` constructor.

Python floats are modelled as `ℚ` (the constructor only passes them through,
never computes with them except one division), Python ints as `ℕ`, and the
external logger / wandb / beta objects as abstract type parameters.  Object
identity (needed for the deep-copy claim) is modelled with an explicit heap
of Q-network objects, indexed by allocation order.  The one fallible step,
`float(batch_size) / samples_per_insert`, is modelled with `Except`:
Python raises `ZeroDivisionError` on float division by zero.
-/

namespace DistractorsBenchmark

/-- `acme.specs.EnvironmentSpec`, restricted to the fields the constructor
reads: `environment_spec.actions.num_values` and
`environment_spec.observations.shape[0]`. -/
structure EnvironmentSpec where
  actionsNumValues : Nat
  observationsShape0 : Nat
  deriving DecidableEq, Repr

/-- `reverb.selectors` item distribution choices used as samplers/removers. -/
inductive Selector where
  | prioritized (priorityExponent : ℚ)
  | fifo
  | lifo
  | uniform
  deriving DecidableEq, Repr

/-- Whether a selector is a `reverb.selectors.Prioritized(...)`. -/
def Selector.isPrioritized : Selector → Bool
  | .prioritized _ => true
  | _ => false

/-- `reverb.rate_limiters` choices; the code uses `MinSize(1)`. -/
inductive RateLimiter where
  | minSize (minSizeToSample : Nat)
  | sampleToInsertRatio (minSizeToSample : Nat) (ratio : ℚ)
  deriving DecidableEq, Repr

/-- The reverb table signature returned by
`adders.NStepTransitionAdder.signature(environment_spec)`: per-field tensor
specs derived from the environment spec.  We model it as tagged data derived
from the spec it was built from. -/
structure AdderSignature where
  ofSpec : EnvironmentSpec
  deriving DecidableEq, Repr

/-- `adders.NStepTransitionAdder.signature`. -/
def NStepTransitionAdderSignature (environmentSpec : EnvironmentSpec) :
    AdderSignature :=
  ⟨environmentSpec⟩

/-- `adders.DEFAULT_PRIORITY_TABLE`. -/
def DEFAULT_PRIORITY_TABLE : String := "priority_table"

/-- `reverb.Table(...)`: the keyword arguments the constructor passes. -/
structure Table where
  name : String
  sampler : Selector
  remover : Selector
  maxSize : Nat
  rateLimiter : RateLimiter
  signature : AdderSignature
  deriving DecidableEq, Repr

/-- `reverb.Server([replay_table], port=None)`.  The port is picked by the
framework when `port=None`; we take it as an input of the model. -/
structure Server where
  tables : List Table
  port : Nat
  deriving DecidableEq, Repr

/-- `adders.NStepTransitionAdder(client=reverb.Client(address), n_step=...,
discount=...)`. -/
structure NStepTransitionAdder where
  clientAddress : String
  nStep : Nat
  discount : ℚ
  deriving DecidableEq, Repr

/-- `reverb.TFClient(address)`. -/
structure TFClient where
  address : String
  deriving DecidableEq, Repr

/-- `datasets.make_reverb_dataset(server_address=..., batch_size=...,
prefetch_size=...)`. -/
structure Dataset where
  serverAddress : String
  batchSize : Nat
  prefetchSize : Nat
  deriving DecidableEq, Repr

/-- State of a `QNetworkWithEncoder` object: the constructor arguments plus
the variable-creation status of the network, its `_decoder`, and its
`_projector` (mutated by the three `tf2_utils.create_variables` calls). -/
structure QNetworkState where
  numActions : Nat
  obsDim : Nat
  encoderType : String
  encoderFeatureDim : Nat
  projectionFeatureDim : Nat
  variablesCreated : Bool
  decoderVariablesCreated : Bool
  projectorVariablesCreated : Bool
  deriving DecidableEq, Repr

instance : Inhabited QNetworkState :=
  ⟨⟨0, 0, "", 0, 0, false, false, false⟩⟩

/-- A heap of Q-network objects; a Python object reference is an index into
the allocation list, so two references are aliases iff the indices agree. -/
structure Heap where
  objects : List QNetworkState
  deriving DecidableEq, Repr

/-- The empty heap. -/
def Heap.empty : Heap := ⟨[]⟩

/-- Allocate a fresh object; returns the heap and the new reference. -/
def Heap.alloc (h : Heap) (s : QNetworkState) : Heap × Nat :=
  (⟨h.objects ++ [s]⟩, h.objects.length)

/-- Dereference. -/
def Heap.get (h : Heap) (i : Nat) : Option QNetworkState :=
  h.objects.get? i

/-- Mutate the object behind reference `i` in place. -/
def Heap.set (h : Heap) (i : Nat) (s : QNetworkState) : Heap :=
  ⟨h.objects.set i s⟩

/-- `copy.deepcopy`: allocates a fresh object whose state equals the state of
the copied one.  A live reference always dereferences; the `getD` default is
never reached for one. -/
def Heap.deepcopy (h : Heap) (i : Nat) : Heap × Nat :=
  h.alloc ((h.get i).getD default)

/-- `tf2_utils.create_variables(self.network, [environment_spec.observations])`,
as the mutation it performs on the network object. -/
def createNetworkVariables (h : Heap) (i : Nat) : Heap :=
  match h.get i with
  | some s => h.set i { s with variablesCreated := true }
  | none => h

/-- `tf2_utils.create_variables(self.network._decoder, ...)`. -/
def createDecoderVariables (h : Heap) (i : Nat) : Heap :=
  match h.get i with
  | some s => h.set i { s with decoderVariablesCreated := true }
  | none => h

/-- `tf2_utils.create_variables(self.network._projector, ...)`. -/
def createProjectorVariables (h : Heap) (i : Nat) : Heap :=
  match h.get i with
  | some s => h.set i { s with projectorVariablesCreated := true }
  | none => h

/-- A `tf.Tensor` usable as epsilon: either the default
`tf.Variable(0.05, trainable=False)` shape of tensor, or an
externally supplied tensor (opaque handle). -/
inductive EpsilonTensor where
  | tfVariable (value : ℚ) (trainable : Bool)
  | external (handle : Nat)
  deriving DecidableEq, Repr

/-- The policy network handed to the actor: either the externally supplied
`policy_network` module (opaque handle), or the
`snt.Sequential([self.network, lambda q: trfl.epsilon_greedy(q,
epsilon=epsilon).sample()])` built by the constructor, which applies the
online Q-network and then samples from an epsilon-greedy distribution over
its outputs. -/
inductive Policy where
  | external (handle : Nat)
  | epsilonGreedySequential (qNetworkRef : Nat) (epsilon : EpsilonTensor)
  deriving DecidableEq, Repr

/-- Whether the policy is the constructor-built epsilon-greedy wrapper around
the online Q-network referenced by `qNetworkRef`. -/
def Policy.isEpsilonGreedyOver (p : Policy) (qNetworkRef : Nat) : Bool :=
  match p with
  | .epsilonGreedySequential r _ => r == qNetworkRef
  | .external _ => false

/-- `actors.FeedForwardActor(policy_network, adder)`. -/
structure FeedForwardActor where
  policy : Policy
  adder : NStepTransitionAdder
  deriving DecidableEq, Repr

/-- The keyword arguments of the `learner(...)` call (the learner class is
supplied by the caller; `L`, `W`, `B` are the opaque logger, wandb and beta
types). -/
structure LearnerCall (L W B : Type) where
  networkRef : Nat
  targetNetworkRef : Nat
  discount : ℚ
  importanceSamplingExponent : ℚ
  learningRate : ℚ
  targetUpdatePeriod : Nat
  dataset : Dataset
  replayClient : TFClient
  logger : Option L
  checkpoint : Bool
  wandb : W
  beta : Option B
  deriving DecidableEq, Repr

/-- `dqn_learner.state`: the learner's checkpointable state, an attribute of
the constructed learner object. -/
structure LearnerState (L W B : Type) where
  ofLearner : LearnerCall L W B
  deriving DecidableEq, Repr

/-- `LearnerCall.state` mirrors the Python attribute access
`dqn_learner.state`. -/
def LearnerCall.state {L W B : Type} (l : LearnerCall L W B) :
    LearnerState L W B :=
  ⟨l⟩

/-- `tf2_savers.Checkpointer(directory=..., objects_to_save=...,
subdirectory=..., time_delta_minutes=...)`. -/
structure Checkpointer (L W B : Type) where
  directory : String
  objectsToSave : LearnerState L W B
  subdirectory : String
  timeDeltaMinutes : ℚ
  deriving DecidableEq, Repr

/-- The arguments of the parent `agent.Agent.__init__` call. -/
structure ParentInit (L W B : Type) where
  actor : FeedForwardActor
  learner : LearnerCall L W B
  minObservations : Nat
  observationsPerStep : ℚ
  deriving DecidableEq, Repr

/-- The keyword arguments of `DQNAgent.__init__` with their Python defaults.
`wandb` and `learner` are positional and required; the learner class itself
is external, so the model records the call made to it instead. -/
structure AgentArgs (L W B : Type) where
  wandb : W
  environmentSpec : EnvironmentSpec
  encoderType : String := "mlp"
  encoderFeatureDim : Nat := 6
  projectionFeatureDim : Nat := 6
  batchSize : Nat := 256
  prefetchSize : Nat := 4
  targetUpdatePeriod : Nat := 100
  samplesPerInsert : ℚ := 32
  minReplaySize : Nat := 1000
  maxReplaySize : Nat := 1000000
  importanceSamplingExponent : ℚ := 1 / 5
  priorityExponent : ℚ := 3 / 5
  nStep : Nat := 5
  epsilon : Option EpsilonTensor := none
  learningRate : ℚ := 1 / 1000
  discount : ℚ := 99 / 100
  logger : Option L := none
  checkpoint : Bool := true
  checkpointSubpath : String := "~/acme/"
  policyNetwork : Option Nat := none
  beta : Option B := none
  deriving DecidableEq, Repr

/-- The Python exceptions the modelled code can raise. -/
inductive PyError where
  | zeroDivisionError
  deriving DecidableEq, Repr

/-- Python float division: raises `ZeroDivisionError` on a zero divisor. -/
def floatDiv (a b : ℚ) : Except PyError ℚ :=
  if b = 0 then .error .zeroDivisionError else .ok (a / b)

/-- Everything `DQNAgent.__init__` constructs. -/
structure DQNAgentResult (L W B : Type) where
  replayTables : List Table
  server : Server
  adder : NStepTransitionAdder
  replayClient : TFClient
  dataset : Dataset
  networkRef : Nat
  policy : Policy
  heap : Heap
  targetNetworkRef : Nat
  actor : FeedForwardActor
  learnerCall : LearnerCall L W B
  checkpointer : Option (Checkpointer L W B)
  parentInit : ParentInit L W B
  deriving DecidableEq, Repr

/-- `DQNAgent.__init__`, line by line.  `port` is the port the reverb
framework picks for `reverb.Server([replay_table], port=None)`. -/
def DQNAgentInit {L W B : Type} (args : AgentArgs L W B) (port : Nat) :
    Except PyError (DQNAgentResult L W B) :=
  let replayTable : Table :=
    { name := DEFAULT_PRIORITY_TABLE
      sampler := .prioritized args.priorityExponent
      remover := .fifo
      maxSize := args.maxReplaySize
      rateLimiter := .minSize 1
      signature := NStepTransitionAdderSignature args.environmentSpec }
  let server : Server := { tables := [replayTable], port := port }
  let address : String := "localhost:" ++ toString server.port
  let adder : NStepTransitionAdder :=
    { clientAddress := address, nStep := args.nStep, discount := args.discount }
  let replayClient : TFClient := { address := address }
  let dataset : Dataset :=
    { serverAddress := address
      batchSize := args.batchSize
      prefetchSize := args.prefetchSize }
  let networkState : QNetworkState :=
    { numActions := args.environmentSpec.actionsNumValues
      obsDim := args.environmentSpec.observationsShape0
      encoderType := args.encoderType
      encoderFeatureDim := args.encoderFeatureDim
      projectionFeatureDim := args.projectionFeatureDim
      variablesCreated := false
      decoderVariablesCreated := false
      projectorVariablesCreated := false }
  let allocated := Heap.empty.alloc networkState
  let h1 := allocated.1
  let networkRef := allocated.2
  let policy : Policy :=
    match args.policyNetwork with
    | some handle => .external handle
    | none =>
        let epsilon :=
          match args.epsilon with
          | some e => e
          | none => .tfVariable (1 / 20) false
        .epsilonGreedySequential networkRef epsilon
  let h2 := createNetworkVariables h1 networkRef
  let h3 := createDecoderVariables h2 networkRef
  let h4 :=
    if args.encoderType ≠ "" then createProjectorVariables h3 networkRef
    else h3
  let copied := h4.deepcopy networkRef
  let h5 := copied.1
  let targetNetworkRef := copied.2
  let actor : FeedForwardActor := { policy := policy, adder := adder }
  let dqnLearner : LearnerCall L W B :=
    { networkRef := networkRef
      targetNetworkRef := targetNetworkRef
      discount := args.discount
      importanceSamplingExponent := args.importanceSamplingExponent
      learningRate := args.learningRate
      targetUpdatePeriod := args.targetUpdatePeriod
      dataset := dataset
      replayClient := replayClient
      logger := args.logger
      checkpoint := args.checkpoint
      wandb := args.wandb
      beta := args.beta }
  let checkpointer : Option (Checkpointer L W B) :=
    if args.checkpoint then
      some
        { directory := args.checkpointSubpath
          objectsToSave := dqnLearner.state
          subdirectory := "dqn_learner"
          timeDeltaMinutes := 60 }
    else none
  (floatDiv (args.batchSize : ℚ) args.samplesPerInsert).map fun obsPerStep =>
    { replayTables := [replayTable]
      server := server
      adder := adder
      replayClient := replayClient
      dataset := dataset
      networkRef := networkRef
      policy := policy
      heap := h5
      targetNetworkRef := targetNetworkRef
      actor := actor
      learnerCall := dqnLearner
      checkpointer := checkpointer
      parentInit :=
        { actor := actor
          learner := dqnLearner
          minObservations := max args.batchSize args.minReplaySize
          observationsPerStep := obsPerStep } }

/-- The fully evaluated network object state at the end of the constructor:
the constructor arguments, with all variable-creation flags set (the
projector's only when `encoder_type` is truthy). -/
def finalNetworkState {L W B : Type} (args : AgentArgs L W B) :
    QNetworkState :=
  { numActions := args.environmentSpec.actionsNumValues
    obsDim := args.environmentSpec.observationsShape0
    encoderType := args.encoderType
    encoderFeatureDim := args.encoderFeatureDim
    projectionFeatureDim := args.projectionFeatureDim
    variablesCreated := true
    decoderVariablesCreated := true
    projectorVariablesCreated := decide (args.encoderType ≠ "") }


/-- The observable events of one `DQNAgent.update()` call, in order. -/
inductive UpdateEvent where
  | parentUpdate
  | checkpointerSave
  deriving DecidableEq, Repr

/-- `DQNAgent.update`: run the parent class update, then save the
checkpointer when one exists. -/
def DQNAgentUpdate {L W B : Type} (a : DQNAgentResult L W B) :
    List UpdateEvent :=
  [.parentUpdate] ++
    (match a.checkpointer with
     | some _ => [.checkpointerSave]
     | none => [])

/-- A small concrete environment spec for concrete runs: 4 actions,
8-dimensional observations. -/
def exampleSpec : EnvironmentSpec := ⟨4, 8⟩

/-- A concrete constructor call with all keyword defaults (logger, wandb and
beta instantiated at `Nat`). -/
def exampleArgs : AgentArgs Nat Nat Nat :=
  { wandb := 7, environmentSpec := exampleSpec }

/-- A concrete constructor call that supplies a `policy_network` argument
(opaque handle 9) and an explicit epsilon tensor. -/
def examplePolicyArgs : AgentArgs Nat Nat Nat :=
  { wandb := 7
    environmentSpec := exampleSpec
    epsilon := some (.external 3)
    policyNetwork := some 9 }

/-- A concrete constructor call with `checkpoint=False`. -/
def exampleNoCkptArgs : AgentArgs Nat Nat Nat :=
  { wandb := 7, environmentSpec := exampleSpec, checkpoint := false }

/-- A concrete constructor call with `samples_per_insert=0`. -/
def exampleZeroSpiArgs : AgentArgs Nat Nat Nat :=
  { wandb := 7, environmentSpec := exampleSpec, samplesPerInsert := 0 }

/-- A throwaway result record, used only as the `getD` default when peeling a
known-successful constructor run. -/
def dummyResult : DQNAgentResult Nat Nat Nat :=
  { replayTables := []
    server := ⟨[], 0⟩
    adder := ⟨"", 0, 0⟩
    replayClient := ⟨""⟩
    dataset := ⟨"", 0, 0⟩
    networkRef := 0
    policy := .external 0
    heap := ⟨[]⟩
    targetNetworkRef := 0
    actor := ⟨.external 0, ⟨"", 0, 0⟩⟩
    learnerCall :=
      { networkRef := 0
        targetNetworkRef := 0
        discount := 0
        importanceSamplingExponent := 0
        learningRate := 0
        targetUpdatePeriod := 0
        dataset := ⟨"", 0, 0⟩
        replayClient := ⟨""⟩
        logger := none
        checkpoint := false
        wandb := 0
        beta := none }
    checkpointer := none
    parentInit :=
      { actor := ⟨.external 0, ⟨"", 0, 0⟩⟩
        learner :=
          { networkRef := 0
            targetNetworkRef := 0
            discount := 0
            importanceSamplingExponent := 0
            learningRate := 0
            targetUpdatePeriod := 0
            dataset := ⟨"", 0, 0⟩
            replayClient := ⟨""⟩
            logger := none
            checkpoint := false
            wandb := 0
            beta := none }
        minObservations := 0
        observationsPerStep := 0 } }

/-- The concrete result of `DQNAgentInit exampleArgs 42`. -/
def exampleInitResult : DQNAgentResult Nat Nat Nat :=
  (DQNAgentInit exampleArgs 42).toOption.getD dummyResult

/-- The concrete result of `DQNAgentInit examplePolicyArgs 42`. -/
def examplePolicyResult : DQNAgentResult Nat Nat Nat :=
  (DQNAgentInit examplePolicyArgs 42).toOption.getD dummyResult

/-- The concrete result of `DQNAgentInit exampleNoCkptArgs 42`. -/
def exampleNoCkptResult : DQNAgentResult Nat Nat Nat :=
  (DQNAgentInit exampleNoCkptArgs 42).toOption.getD dummyResult

/-- A concrete constructor call whose `batch_size` (256) exceeds its
`min_replay_size` (100). -/
def exampleBigBatchArgs : AgentArgs Nat Nat Nat :=
  { wandb := 7, environmentSpec := exampleSpec, minReplaySize := 100 }

/-- The concrete result of `DQNAgentInit exampleBigBatchArgs 42`. -/
def exampleBigBatchResult : DQNAgentResult Nat Nat Nat :=
  (DQNAgentInit exampleBigBatchArgs 42).toOption.getD dummyResult

/-- Characterization of the constructor: it fails exactly on
`samples_per_insert = 0`, and otherwise returns the explicit record below. -/
theorem DQNAgentInit_eq {L W B : Type} (args : AgentArgs L W B) (port : Nat) :
    DQNAgentInit args port =
      if args.samplesPerInsert = 0 then .error .zeroDivisionError
      else
        .ok
          { replayTables :=
              [{ name := DEFAULT_PRIORITY_TABLE
                 sampler := .prioritized args.priorityExponent
                 remover := .fifo
                 maxSize := args.maxReplaySize
                 rateLimiter := .minSize 1
                 signature := NStepTransitionAdderSignature args.environmentSpec }]
            server :=
              { tables :=
                  [{ name := DEFAULT_PRIORITY_TABLE
                     sampler := .prioritized args.priorityExponent
                     remover := .fifo
                     maxSize := args.maxReplaySize
                     rateLimiter := .minSize 1
                     signature := NStepTransitionAdderSignature args.environmentSpec }]
                port := port }
            adder :=
              { clientAddress := "localhost:" ++ toString port
                nStep := args.nStep
                discount := args.discount }
            replayClient := { address := "localhost:" ++ toString port }
            dataset :=
              { serverAddress := "localhost:" ++ toString port
                batchSize := args.batchSize
                prefetchSize := args.prefetchSize }
            networkRef := 0
            policy :=
              match args.policyNetwork with
              | some handle => .external handle
              | none =>
                  .epsilonGreedySequential 0
                    (match args.epsilon with
                     | some e => e
                     | none => .tfVariable (1 / 20) false)
            heap := ⟨[finalNetworkState args, finalNetworkState args]⟩
            targetNetworkRef := 1
            actor :=
              { policy :=
                  match args.policyNetwork with
                  | some handle => .external handle
                  | none =>
                      .epsilonGreedySequential 0
                        (match args.epsilon with
                         | some e => e
                         | none => .tfVariable (1 / 20) false)
                adder :=
                  { clientAddress := "localhost:" ++ toString port
                    nStep := args.nStep
                    discount := args.discount } }
            learnerCall :=
              { networkRef := 0
                targetNetworkRef := 1
                discount := args.discount
                importanceSamplingExponent := args.importanceSamplingExponent
                learningRate := args.learningRate
                targetUpdatePeriod := args.targetUpdatePeriod
                dataset :=
                  { serverAddress := "localhost:" ++ toString port
                    batchSize := args.batchSize
                    prefetchSize := args.prefetchSize }
                replayClient := { address := "localhost:" ++ toString port }
                logger := args.logger
                checkpoint := args.checkpoint
                wandb := args.wandb
                beta := args.beta }
            checkpointer :=
              if args.checkpoint then
                some
                  { directory := args.checkpointSubpath
                    objectsToSave :=
                      ⟨{ networkRef := 0
                         targetNetworkRef := 1
                         discount := args.discount
                         importanceSamplingExponent :=
                           args.importanceSamplingExponent
                         learningRate := args.learningRate
                         targetUpdatePeriod := args.targetUpdatePeriod
                         dataset :=
                           { serverAddress := "localhost:" ++ toString port
                             batchSize := args.batchSize
                             prefetchSize := args.prefetchSize }
                         replayClient :=
                           { address := "localhost:" ++ toString port }
                         logger := args.logger
                         checkpoint := args.checkpoint
                         wandb := args.wandb
                         beta := args.beta }⟩
                    subdirectory := "dqn_learner"
                    timeDeltaMinutes := 60 }
              else none
            parentInit :=
              { actor :=
                  { policy :=
                      match args.policyNetwork with
                      | some handle => .external handle
                      | none =>
                          .epsilonGreedySequential 0
                            (match args.epsilon with
                             | some e => e
                             | none => .tfVariable (1 / 20) false)
                    adder :=
                      { clientAddress := "localhost:" ++ toString port
                        nStep := args.nStep
                        discount := args.discount } }
                learner :=
                  { networkRef := 0
                    targetNetworkRef := 1
                    discount := args.discount
                    importanceSamplingExponent :=
                      args.importanceSamplingExponent
                    learningRate := args.learningRate
                    targetUpdatePeriod := args.targetUpdatePeriod
                    dataset :=
                      { serverAddress := "localhost:" ++ toString port
                        batchSize := args.batchSize
                        prefetchSize := args.prefetchSize }
                    replayClient := { address := "localhost:" ++ toString port }
                    logger := args.logger
                    checkpoint := args.checkpoint
                    wandb := args.wandb
                    beta := args.beta }
                minObservations := max args.batchSize args.minReplaySize
                observationsPerStep :=
                  (args.batchSize : ℚ) / args.samplesPerInsert } } := by
  unfold DQNAgentInit floatDiv
  by_cases hs : args.samplesPerInsert = 0
  · simp [hs, Except.map]
  · by_cases he : args.encoderType = "" <;>
      simp [hs, he, Except.map, Heap.empty, Heap.alloc, Heap.get, Heap.set,
        Heap.deepcopy, createNetworkVariables, createDecoderVariables,
        createProjectorVariables, finalNetworkState, LearnerCall.state]

/-- Claim C1: every configuration value reaches its framework call unchanged:
the dataset reader is built over the replay server's address with exactly the
given `batch_size` and `prefetch_size`, and the learner is constructed with
exactly the given `discount`, `importance_sampling_exponent`,
`learning_rate`, `target_update_period`, `logger`, `checkpoint`, `wandb` and
`beta` arguments. -/
theorem claim_C1_config_passthrough {L W B : Type} (args : AgentArgs L W B)
    (port : Nat) (r : DQNAgentResult L W B)
    (h : DQNAgentInit args port = .ok r) :
    r.dataset =
      { serverAddress := "localhost:" ++ toString r.server.port
        batchSize := args.batchSize
        prefetchSize := args.prefetchSize } ∧
    r.learnerCall.discount = args.discount ∧
    r.learnerCall.importanceSamplingExponent =
      args.importanceSamplingExponent ∧
    r.learnerCall.learningRate = args.learningRate ∧
    r.learnerCall.targetUpdatePeriod = args.targetUpdatePeriod ∧
    r.learnerCall.logger = args.logger ∧
    r.learnerCall.checkpoint = args.checkpoint ∧
    r.learnerCall.wandb = args.wandb ∧
    r.learnerCall.beta = args.beta ∧
    r.learnerCall.dataset = r.dataset := by
  rw [DQNAgentInit_eq] at h
  by_cases hs : args.samplesPerInsert = 0
  · rw [if_pos hs] at h; simp at h
  · rw [if_neg hs] at h
    injection h with h
    subst h
    exact ⟨rfl, rfl, rfl, rfl, rfl, rfl, rfl, rfl, rfl, rfl⟩

/-- Witness for claim C1 at the concrete call `DQNAgentInit exampleArgs 42`. -/
theorem claim_C1_witness :
    DQNAgentInit exampleArgs 42 = .ok exampleInitResult ∧
    (exampleInitResult.dataset =
       { serverAddress := "localhost:" ++ toString exampleInitResult.server.port
         batchSize := exampleArgs.batchSize
         prefetchSize := exampleArgs.prefetchSize } ∧
     exampleInitResult.learnerCall.discount = exampleArgs.discount ∧
     exampleInitResult.learnerCall.importanceSamplingExponent =
       exampleArgs.importanceSamplingExponent ∧
     exampleInitResult.learnerCall.learningRate = exampleArgs.learningRate ∧
     exampleInitResult.learnerCall.targetUpdatePeriod =
       exampleArgs.targetUpdatePeriod ∧
     exampleInitResult.learnerCall.logger = exampleArgs.logger ∧
     exampleInitResult.learnerCall.checkpoint = exampleArgs.checkpoint ∧
     exampleInitResult.learnerCall.wandb = exampleArgs.wandb ∧
     exampleInitResult.learnerCall.beta = exampleArgs.beta ∧
     exampleInitResult.learnerCall.dataset = exampleInitResult.dataset) :=
  ⟨rfl, claim_C1_config_passthrough exampleArgs 42 exampleInitResult rfl⟩

/-- Claim C2 as stated is false: the replay table's removal policy is
`reverb.selectors.Fifo()`, not a prioritized selector (the prioritized
selector is the sampler).  Concrete run shown below. -/
theorem claim_C2_counterexample :
    DQNAgentInit exampleArgs 42 = .ok exampleInitResult ∧
    exampleInitResult.replayTables.map
        (fun t => t.remover.isPrioritized) = [false] ∧
    exampleInitResult.replayTables.map Table.remover = [Selector.fifo] :=
  ⟨rfl, rfl, rfl⟩

/-- Claim C2 (amended): for every call to the constructor, the replay table's
removal policy is a FIFO removal policy passed as a parameter to the
pre-built framework table object; the prioritized selector is the table's
sampler, not its remover. -/
theorem claim_C2_fifo_remover {L W B : Type} (args : AgentArgs L W B)
    (port : Nat) (r : DQNAgentResult L W B)
    (h : DQNAgentInit args port = .ok r) :
    r.replayTables.map Table.remover = [Selector.fifo] ∧
    r.replayTables.map (fun t => t.sampler.isPrioritized) = [true] := by
  rw [DQNAgentInit_eq] at h
  by_cases hs : args.samplesPerInsert = 0
  · rw [if_pos hs] at h; simp at h
  · rw [if_neg hs] at h
    injection h with h
    subst h
    exact ⟨rfl, rfl⟩

/-- Witness for the amended claim C2 at `DQNAgentInit exampleArgs 42`. -/
theorem claim_C2_witness :
    DQNAgentInit exampleArgs 42 = .ok exampleInitResult ∧
    (exampleInitResult.replayTables.map Table.remover = [Selector.fifo] ∧
     exampleInitResult.replayTables.map
        (fun t => t.sampler.isPrioritized) = [true]) :=
  ⟨rfl, claim_C2_fifo_remover exampleArgs 42 exampleInitResult rfl⟩

/-- Claim C3: exactly one replay table is stood up (and passed to the
server), with a prioritized sampler whose exponent is `priority_exponent`, a
size-based rate limiter of minimum size 1, table maximum size
`max_replay_size`, and a signature derived from `environment_spec`. -/
theorem claim_C3_replay_table_config {L W B : Type} (args : AgentArgs L W B)
    (port : Nat) (r : DQNAgentResult L W B)
    (h : DQNAgentInit args port = .ok r) :
    r.replayTables.length = 1 ∧
    r.server.tables = r.replayTables ∧
    r.replayTables.map Table.sampler =
      [Selector.prioritized args.priorityExponent] ∧
    r.replayTables.map Table.rateLimiter = [RateLimiter.minSize 1] ∧
    r.replayTables.map Table.maxSize = [args.maxReplaySize] ∧
    r.replayTables.map Table.signature =
      [NStepTransitionAdderSignature args.environmentSpec] := by
  rw [DQNAgentInit_eq] at h
  by_cases hs : args.samplesPerInsert = 0
  · rw [if_pos hs] at h; simp at h
  · rw [if_neg hs] at h
    injection h with h
    subst h
    exact ⟨rfl, rfl, rfl, rfl, rfl, rfl⟩

/-- Witness for claim C3 at `DQNAgentInit exampleArgs 42`. -/
theorem claim_C3_witness :
    DQNAgentInit exampleArgs 42 = .ok exampleInitResult ∧
    (exampleInitResult.replayTables.length = 1 ∧
     exampleInitResult.server.tables = exampleInitResult.replayTables ∧
     exampleInitResult.replayTables.map Table.sampler =
       [Selector.prioritized exampleArgs.priorityExponent] ∧
     exampleInitResult.replayTables.map Table.rateLimiter =
       [RateLimiter.minSize 1] ∧
     exampleInitResult.replayTables.map Table.maxSize =
       [exampleArgs.maxReplaySize] ∧
     exampleInitResult.replayTables.map Table.signature =
       [NStepTransitionAdderSignature exampleArgs.environmentSpec]) :=
  ⟨rfl, claim_C3_replay_table_config exampleArgs 42 exampleInitResult rfl⟩

/-- Claim C4: the target network is a deep copy of the online Q-network taken
after the online network's variables are created: the two references are
distinct objects with equal states at construction time, and mutating the
object behind one reference does not change what the other dereferences to. -/
theorem claim_C4_target_deepcopy {L W B : Type} (args : AgentArgs L W B)
    (port : Nat) (r : DQNAgentResult L W B) (s : QNetworkState)
    (h : DQNAgentInit args port = .ok r) :
    r.networkRef ≠ r.targetNetworkRef ∧
    r.heap.get r.networkRef = r.heap.get r.targetNetworkRef ∧
    r.heap.get r.targetNetworkRef = some (finalNetworkState args) ∧
    (finalNetworkState args).variablesCreated = true ∧
    (finalNetworkState args).decoderVariablesCreated = true ∧
    (r.heap.set r.networkRef s).get r.targetNetworkRef =
      r.heap.get r.targetNetworkRef ∧
    (r.heap.set r.targetNetworkRef s).get r.networkRef =
      r.heap.get r.networkRef := by
  rw [DQNAgentInit_eq] at h
  by_cases hs : args.samplesPerInsert = 0
  · rw [if_pos hs] at h; simp at h
  · rw [if_neg hs] at h
    injection h with h
    subst h
    exact ⟨Nat.zero_ne_one, rfl, rfl, rfl, rfl, rfl, rfl⟩

/-- Witness for claim C4 at `DQNAgentInit exampleArgs 42`, mutating the
online network to the all-zero state. -/
theorem claim_C4_witness :
    DQNAgentInit exampleArgs 42 = .ok exampleInitResult ∧
    (exampleInitResult.networkRef ≠ exampleInitResult.targetNetworkRef ∧
     exampleInitResult.heap.get exampleInitResult.networkRef =
       exampleInitResult.heap.get exampleInitResult.targetNetworkRef ∧
     exampleInitResult.heap.get exampleInitResult.targetNetworkRef =
       some (finalNetworkState exampleArgs) ∧
     (finalNetworkState exampleArgs).variablesCreated = true ∧
     (finalNetworkState exampleArgs).decoderVariablesCreated = true ∧
     (exampleInitResult.heap.set exampleInitResult.networkRef
         default).get exampleInitResult.targetNetworkRef =
       exampleInitResult.heap.get exampleInitResult.targetNetworkRef ∧
     (exampleInitResult.heap.set exampleInitResult.targetNetworkRef
         default).get exampleInitResult.networkRef =
       exampleInitResult.heap.get exampleInitResult.networkRef) :=
  ⟨rfl, claim_C4_target_deepcopy exampleArgs 42 exampleInitResult default rfl⟩

/-- Claim C5 as stated is false: when a `policy_network` argument is given,
the actor's policy is that external module, not an epsilon-greedy wrapper
around the online Q-network.  Concrete run with `policy_network` handle 9. -/
theorem claim_C5_counterexample :
    DQNAgentInit examplePolicyArgs 42 = .ok examplePolicyResult ∧
    examplePolicyResult.actor.policy = .external 9 ∧
    examplePolicyResult.actor.policy.isEpsilonGreedyOver
      examplePolicyResult.networkRef = false :=
  ⟨rfl, rfl, rfl⟩

/-- Claim C5 (amended): whenever the `policy_network` argument is `None`, the
online Q-network is wrapped in an epsilon-greedy policy and that policy is
the one the actor uses to sample actions: it applies the online Q-network
and then samples from an epsilon-greedy distribution over its outputs, with
the given epsilon tensor or the default one. -/
theorem claim_C5_policy_wraps_network {L W B : Type} (args : AgentArgs L W B)
    (port : Nat) (r : DQNAgentResult L W B)
    (h : DQNAgentInit args port = .ok r)
    (hp : args.policyNetwork = none) :
    r.actor.policy = r.policy ∧
    r.policy =
      .epsilonGreedySequential r.networkRef
        (match args.epsilon with
         | some e => e
         | none => .tfVariable (1 / 20) false) ∧
    r.policy.isEpsilonGreedyOver r.networkRef = true := by
  rw [DQNAgentInit_eq] at h
  by_cases hs : args.samplesPerInsert = 0
  · rw [if_pos hs] at h; simp at h
  · rw [if_neg hs] at h
    injection h with h
    subst h
    refine ⟨rfl, ?_, ?_⟩ <;> simp [hp, Policy.isEpsilonGreedyOver]

/-- Witness for the amended claim C5 at `DQNAgentInit exampleArgs 42`
(where `policy_network` is `None` and `epsilon` is `None`). -/
theorem claim_C5_witness :
    DQNAgentInit exampleArgs 42 = .ok exampleInitResult ∧
    (exampleInitResult.actor.policy = exampleInitResult.policy ∧
     exampleInitResult.policy =
       .epsilonGreedySequential exampleInitResult.networkRef
         (match exampleArgs.epsilon with
          | some e => e
          | none => .tfVariable (1 / 20) false) ∧
     exampleInitResult.policy.isEpsilonGreedyOver
       exampleInitResult.networkRef = true) :=
  ⟨rfl, claim_C5_policy_wraps_network exampleArgs 42 exampleInitResult rfl rfl⟩

/-- Claim C6: a periodic checkpointer over the learner's state exists iff
`checkpoint` is true, with directory `checkpoint_subpath`, subdirectory
"dqn_learner" and a 60-minute period; `update` saves it after the parent
update exactly when it exists. -/
theorem claim_C6_checkpointer {L W B : Type} (args : AgentArgs L W B)
    (port : Nat) (r : DQNAgentResult L W B)
    (h : DQNAgentInit args port = .ok r) :
    r.checkpointer =
      (if args.checkpoint then
         some
           { directory := args.checkpointSubpath
             objectsToSave := r.learnerCall.state
             subdirectory := "dqn_learner"
             timeDeltaMinutes := 60 }
       else none) ∧
    DQNAgentUpdate r =
      (if args.checkpoint then
         [UpdateEvent.parentUpdate, UpdateEvent.checkpointerSave]
       else [UpdateEvent.parentUpdate]) := by
  rw [DQNAgentInit_eq] at h
  by_cases hs : args.samplesPerInsert = 0
  · rw [if_pos hs] at h; simp at h
  · rw [if_neg hs] at h
    injection h with h
    subst h
    by_cases hc : args.checkpoint <;>
      simp [hc, DQNAgentUpdate, LearnerCall.state]

/-- Witness for claim C6 at the two concrete runs `DQNAgentInit exampleArgs
42` (checkpoint on) and `DQNAgentInit exampleNoCkptArgs 42` (checkpoint
off). -/
theorem claim_C6_witness :
    (DQNAgentInit exampleArgs 42 = .ok exampleInitResult ∧
     (exampleInitResult.checkpointer =
        (if exampleArgs.checkpoint then
           some
             { directory := exampleArgs.checkpointSubpath
               objectsToSave := exampleInitResult.learnerCall.state
               subdirectory := "dqn_learner"
               timeDeltaMinutes := 60 }
         else none) ∧
      DQNAgentUpdate exampleInitResult =
        (if exampleArgs.checkpoint then
           [UpdateEvent.parentUpdate, UpdateEvent.checkpointerSave]
         else [UpdateEvent.parentUpdate]))) ∧
    (DQNAgentInit exampleNoCkptArgs 42 = .ok exampleNoCkptResult ∧
     (exampleNoCkptResult.checkpointer =
        (if exampleNoCkptArgs.checkpoint then
           some
             { directory := exampleNoCkptArgs.checkpointSubpath
               objectsToSave := exampleNoCkptResult.learnerCall.state
               subdirectory := "dqn_learner"
               timeDeltaMinutes := 60 }
         else none) ∧
      DQNAgentUpdate exampleNoCkptResult =
        (if exampleNoCkptArgs.checkpoint then
           [UpdateEvent.parentUpdate, UpdateEvent.checkpointerSave]
         else [UpdateEvent.parentUpdate]))) :=
  ⟨⟨rfl, claim_C6_checkpointer exampleArgs 42 exampleInitResult rfl⟩,
   ⟨rfl, claim_C6_checkpointer exampleNoCkptArgs 42 exampleNoCkptResult rfl⟩⟩

/-- Claim C7: the adder is an n-step transition adder over a client of the
created replay server (its client address is the server's address), with
exactly the given `n_step` and `discount`; it is the adder handed to the
actor. -/
theorem claim_C7_nstep_adder {L W B : Type} (args : AgentArgs L W B)
    (port : Nat) (r : DQNAgentResult L W B)
    (h : DQNAgentInit args port = .ok r) :
    r.adder =
      { clientAddress := "localhost:" ++ toString r.server.port
        nStep := args.nStep
        discount := args.discount } ∧
    r.actor.adder = r.adder := by
  rw [DQNAgentInit_eq] at h
  by_cases hs : args.samplesPerInsert = 0
  · rw [if_pos hs] at h; simp at h
  · rw [if_neg hs] at h
    injection h with h
    subst h
    exact ⟨rfl, rfl⟩

/-- Witness for claim C7 at `DQNAgentInit exampleArgs 42`. -/
theorem claim_C7_witness :
    DQNAgentInit exampleArgs 42 = .ok exampleInitResult ∧
    (exampleInitResult.adder =
       { clientAddress :=
           "localhost:" ++ toString exampleInitResult.server.port
         nStep := exampleArgs.nStep
         discount := exampleArgs.discount } ∧
     exampleInitResult.actor.adder = exampleInitResult.adder) :=
  ⟨rfl, claim_C7_nstep_adder exampleArgs 42 exampleInitResult rfl⟩

/-- Claim C8: the minimum number of observations passed to the parent agent
class is `max(batch_size, min_replay_size)`; in particular when `batch_size`
exceeds `min_replay_size` the effective minimum is `batch_size`, not the
given `min_replay_size`. -/
theorem claim_C8_min_observations {L W B : Type} (args : AgentArgs L W B)
    (port : Nat) (r : DQNAgentResult L W B)
    (h : DQNAgentInit args port = .ok r) :
    r.parentInit.minObservations = max args.batchSize args.minReplaySize ∧
    (args.minReplaySize < args.batchSize →
      r.parentInit.minObservations = args.batchSize ∧
      args.minReplaySize ≠ r.parentInit.minObservations) := by
  rw [DQNAgentInit_eq] at h
  by_cases hs : args.samplesPerInsert = 0
  · rw [if_pos hs] at h; simp at h
  · rw [if_neg hs] at h
    injection h with h
    subst h
    refine ⟨rfl, fun hlt => ⟨?_, ?_⟩⟩
    · show max args.batchSize args.minReplaySize = args.batchSize
      omega
    · show args.minReplaySize ≠ max args.batchSize args.minReplaySize
      omega

/-- Witness for claim C8 at `DQNAgentInit exampleBigBatchArgs 42`, whose
`batch_size` (256) exceeds its `min_replay_size` (100). -/
theorem claim_C8_witness :
    (DQNAgentInit exampleBigBatchArgs 42 = .ok exampleBigBatchResult ∧
     exampleBigBatchArgs.minReplaySize < exampleBigBatchArgs.batchSize) ∧
    (exampleBigBatchResult.parentInit.minObservations =
       max exampleBigBatchArgs.batchSize exampleBigBatchArgs.minReplaySize ∧
     exampleBigBatchResult.parentInit.minObservations =
       exampleBigBatchArgs.batchSize ∧
     exampleBigBatchArgs.minReplaySize ≠
       exampleBigBatchResult.parentInit.minObservations) :=
  ⟨⟨rfl, by decide⟩,
   ⟨(claim_C8_min_observations exampleBigBatchArgs 42 exampleBigBatchResult
       rfl).1,
    (claim_C8_min_observations exampleBigBatchArgs 42 exampleBigBatchResult
       rfl).2 (by decide)⟩⟩

/-- Claim C9: `observations_per_step` handed to the parent class equals
`batch_size / samples_per_insert`; the division is unguarded, so the
constructor raises `ZeroDivisionError` exactly when `samples_per_insert`
is zero and succeeds otherwise. -/
theorem claim_C9_observations_per_step {L W B : Type} (args : AgentArgs L W B)
    (port : Nat) :
    (args.samplesPerInsert = 0 →
      DQNAgentInit args port = .error .zeroDivisionError) ∧
    (args.samplesPerInsert ≠ 0 →
      (DQNAgentInit args port).map
          (fun r => r.parentInit.observationsPerStep) =
        .ok ((args.batchSize : ℚ) / args.samplesPerInsert)) := by
  rw [DQNAgentInit_eq]
  constructor
  · intro hs
    rw [if_pos hs]
  · intro hs
    rw [if_neg hs]
    rfl

/-- Witness for claim C9, once with `samples_per_insert = 0`
(`exampleZeroSpiArgs`) and once with the default `samples_per_insert = 32`
(`exampleArgs`). -/
theorem claim_C9_witness :
    DQNAgentInit exampleZeroSpiArgs 42 = .error .zeroDivisionError ∧
    (DQNAgentInit exampleArgs 42).map
        (fun r => r.parentInit.observationsPerStep) =
      .ok ((exampleArgs.batchSize : ℚ) / exampleArgs.samplesPerInsert) :=
  ⟨(claim_C9_observations_per_step exampleZeroSpiArgs 42).1 rfl,
   (claim_C9_observations_per_step exampleArgs 42).2
     (by simp [exampleArgs])⟩

/-- Claim C10: when both `policy_network` and `epsilon` are `None`, the
actor's policy is epsilon-greedy over the online Q-network with a constant
non-trainable epsilon of 0.05; when a `policy_network` is given, it is the
actor's policy and the `epsilon` argument has no effect on the constructed
agent at all. -/
theorem claim_C10_policy_defaults {L W B : Type} (args : AgentArgs L W B)
    (port : Nat) (r : DQNAgentResult L W B)
    (h : DQNAgentInit args port = .ok r) :
    (args.policyNetwork = none → args.epsilon = none →
      r.actor.policy =
        .epsilonGreedySequential r.networkRef
          (.tfVariable (1 / 20) false)) ∧
    (∀ handle, args.policyNetwork = some handle →
      r.actor.policy = .external handle) ∧
    (∀ handle e, args.policyNetwork = some handle →
      DQNAgentInit { args with epsilon := e } port =
        DQNAgentInit args port) := by
  rw [DQNAgentInit_eq] at h
  by_cases hs : args.samplesPerInsert = 0
  · rw [if_pos hs] at h; simp at h
  · rw [if_neg hs] at h
    injection h with h
    subst h
    refine ⟨?_, ?_, ?_⟩
    · intro hp he
      simp [hp, he]
    · intro handle hp
      simp [hp]
    · intro handle e hp
      rw [DQNAgentInit_eq, DQNAgentInit_eq]
      simp [hp, finalNetworkState]

/-- Witness for claim C10 at `DQNAgentInit exampleArgs 42` (both arguments
`None`) and `DQNAgentInit examplePolicyArgs 42` (`policy_network` handle 9,
explicit epsilon tensor handle 3). -/
theorem claim_C10_witness :
    (DQNAgentInit exampleArgs 42 = .ok exampleInitResult ∧
     exampleInitResult.actor.policy =
       .epsilonGreedySequential exampleInitResult.networkRef
         (.tfVariable (1 / 20) false)) ∧
    (DQNAgentInit examplePolicyArgs 42 = .ok examplePolicyResult ∧
     examplePolicyResult.actor.policy = .external 9 ∧
     DQNAgentInit { examplePolicyArgs with epsilon := none } 42 =
       DQNAgentInit examplePolicyArgs 42) :=
  ⟨⟨rfl,
    (claim_C10_policy_defaults exampleArgs 42 exampleInitResult rfl).1 rfl
      rfl⟩,
   ⟨rfl,
    (claim_C10_policy_defaults examplePolicyArgs 42 examplePolicyResult
        rfl).2.1 9 rfl,
    (claim_C10_policy_defaults examplePolicyArgs 42 examplePolicyResult
        rfl).2.2 9 none rfl⟩⟩

end DistractorsBenchmark
